import Mathlib

/-!
Shallow embedding of `playbooks/roles/vault_prometheus_exporter/files/vault_cert_exporter.py`
(a Vault certificate Prometheus exporter) together with theorems settling the
specification claims about it.

Modelling conventions:
* Python strings are modelled as Lean `String` (backed by `List Char`, matching
  Python's code-point indexing and slicing semantics).
* JSON-dictionary records become structures with `Option`-typed fields; a
  `dict.get(key, default)` call becomes `Option.getD`.
* The two points where the program reads the environment clock
  (`time.time()` in `MetricsHandler.serve_metrics` and `int(time.time())`
  inside `CertificateMetrics.generate`) are modelled as explicit integer
  parameters, and the local-timezone offset used by `datetime.timestamp()`
  on naive datetimes is an explicit `tz` parameter.
* Fallible operations of the Vault client, which in Python catch all
  exceptions and degrade (`list_certificates` returns `[]`,
  `get_certificate` returns `None`), are modelled by an abstract `Provider`
  returning `Option` values.
-/

namespace VaultCertExporter

/-- One element of a record's `certificates` list, as consumed by
`CertificateMetrics.generate` (keys `common_name`, `serial_number`,
`days_until_expiry`, `renewal_needed`, `last_scanned`, `last_issued`;
each may be absent). -/
structure CertInfo where
  common_name : Option String
  serial_number : Option String
  days_until_expiry : Option Int
  renewal_needed : Option Bool
  last_scanned : Option String
  last_issued : Option String
deriving DecidableEq, Repr

/-- One certificate inventory record (keys `hostname`, `fqdn`,
`certificates`) as returned by `VaultClient.get_certificate`. -/
structure CertData where
  hostname : Option String
  fqdn : Option String
  certificates : List CertInfo
deriving DecidableEq, Repr

/-- Python `str.replace(c, r)` for a single-character needle `c`:
every occurrence of `c` is replaced by `r`, left to right. -/
def replaceChar (c : Char) (r : List Char) : List Char → List Char
  | [] => []
  | x :: rest => (if x = c then r else [x]) ++ replaceChar c r rest

/-- Core of `CertificateMetrics._escape_label` on character lists:
`value.replace('\\', '\\\\').replace('"', '\\"').replace('\n', '\\n')` —
backslash first, then double quote, then newline. -/
def escapeCore (l : List Char) : List Char :=
  replaceChar '\n' ['\\', 'n'] (replaceChar '"' ['\\', '"'] (replaceChar '\\' ['\\', '\\'] l))

/-- `CertificateMetrics._escape_label`. -/
def escape_label (value : String) : String :=
  ⟨escapeCore value.data⟩

/-- Single-pass characterisation of the escaping of one character
(used to state that the three sequential replaces do not double-escape). -/
def escChar (c : Char) : List Char :=
  if c = '\\' then ['\\', '\\']
  else if c = '"' then ['\\', '"']
  else if c = '\n' then ['\\', 'n']
  else [c]

/-- Single-pass escaping of a whole list. -/
def escapeAll : List Char → List Char
  | [] => []
  | c :: rest => escChar c ++ escapeAll rest

/-- How a Prometheus text-format reader decodes a quoted label value:
a backslash escapes the following character (`\n` decoding to a newline,
anything else to itself). Inverse of `escapeAll` on escaped output. -/
def unescapeCore : List Char → List Char
  | [] => []
  | a :: rest =>
    if a = '\\' then
      match rest with
      | [] => ['\\']
      | b :: rest2 => (if b = 'n' then '\n' else b) :: unescapeCore rest2
    else a :: unescapeCore rest

/-- Scans a character list the way a reader of a quoted label value would:
returns `false` exactly when it meets a double quote that is not consumed
as the second character of a backslash escape (such a quote would
terminate the label value early). -/
def noUnescapedQuote : List Char → Bool
  | [] => true
  | a :: rest =>
    if a = '\\' then
      match rest with
      | [] => true
      | _ :: rest2 => noUnescapedQuote rest2
    else if a = '"' then false
    else noUnescapedQuote rest

/-- `CertificateMetrics._determine_status`: first match wins, no validation
of threshold ordering. -/
def determine_status (warning_days critical_days days_until_expiry : Int) : String :=
  if days_until_expiry ≤ 0 then "expired"
  else if days_until_expiry ≤ critical_days then "critical"
  else if days_until_expiry ≤ warning_days then "warning"
  else "healthy"

/-- `CertificateMetrics._status_to_value`: the four-entry dictionary lookup,
with `dict.get`'s default of `0` for any other string. -/
def status_to_value (status : String) : Int :=
  if status = "healthy" then 0
  else if status = "warning" then 1
  else if status = "critical" then 2
  else if status = "expired" then 3
  else 0

/-- The serial-number label value built at line 217 of the source:
`self._escape_label(cert_info.get('serial_number', 'unknown')[:16])` —
truncate the raw value to its first 16 characters, then escape. -/
def serial_label (raw : String) : String :=
  escape_label ⟨raw.data.take 16⟩

/-- Reads a list of decimal digit characters as a natural number
(`none` if empty or any character is not a digit). -/
def digitsToNat (l : List Char) : Option Nat :=
  if l ≠ [] ∧ l.all Char.isDigit then
    some (l.foldl (fun a c => a * 10 + (c.toNat - 48)) 0)
  else none

/-- Gregorian leap-year test, as used by Python's `datetime` calendar. -/
def isLeap (y : Int) : Bool :=
  (y % 4 == 0 && y % 100 != 0) || y % 400 == 0

/-- Number of days in a month of the proleptic Gregorian calendar. -/
def daysInMonth (y m : Int) : Int :=
  if m = 2 then (if isLeap y then 29 else 28)
  else if m = 4 ∨ m = 6 ∨ m = 9 ∨ m = 11 then 30
  else 31

/-- Days from 1970-01-01 to the given civil date (standard
days-from-civil computation, matching `datetime.timestamp` for dates). -/
def daysFromCivil (y m d : Int) : Int :=
  let y2 := if m ≤ 2 then y - 1 else y
  let era := (if 0 ≤ y2 then y2 else y2 - 399) / 400
  let yoe := y2 - era * 400
  let mp := if 2 < m then m - 3 else m + 9
  let doy := (153 * mp + 2) / 5 + d - 1
  let doe := yoe * 365 + yoe / 4 - yoe / 100 + doy
  era * 146097 + doe - 719468

/-- Parses `YYYY-MM-DD` with calendar validation, as
`datetime.fromisoformat` does for the date part. -/
def parseDate : List Char → Option (Int × Int × Int)
  | [y1, y2, y3, y4, '-', m1, m2, '-', d1, d2] => do
    let y ← digitsToNat [y1, y2, y3, y4]
    let m ← digitsToNat [m1, m2]
    let d ← digitsToNat [d1, d2]
    if 1 ≤ m ∧ m ≤ 12 ∧ 1 ≤ d ∧ (d : Int) ≤ daysInMonth y m then
      some ((y : Int), (m : Int), (d : Int))
    else none
  | _ => none

/-- Parses `HH:MM` or `HH:MM:SS` with range validation, as
`datetime.fromisoformat` does for the time part (fractional seconds are
outside the modelled grammar subset). -/
def parseTime : List Char → Option (Int × Int × Int)
  | [h1, h2, ':', m1, m2] => do
    let h ← digitsToNat [h1, h2]
    let m ← digitsToNat [m1, m2]
    if h ≤ 23 ∧ m ≤ 59 then some ((h : Int), (m : Int), 0) else none
  | [h1, h2, ':', m1, m2, ':', s1, s2] => do
    let h ← digitsToNat [h1, h2]
    let m ← digitsToNat [m1, m2]
    let s ← digitsToNat [s1, s2]
    if h ≤ 23 ∧ m ≤ 59 ∧ s ≤ 59 then some ((h : Int), (m : Int), (s : Int)) else none
  | _ => none

/-- Splits the time-of-day part from a trailing UTC-offset part introduced
by `+` or `-` (first occurrence), as `datetime.fromisoformat` separates a
`±HH:MM` offset. Returns the time characters and, when present, the
offset sign (`true` = negative) and offset characters. -/
def splitTZ : List Char → List Char × Option (Bool × List Char)
  | [] => ([], none)
  | c :: rest =>
    if c = '+' then ([], some (false, rest))
    else if c = '-' then ([], some (true, rest))
    else
      let p := splitTZ rest
      (c :: p.1, p.2)

/-- Parses a `HH:MM` UTC offset into seconds. -/
def parseOffset (l : List Char) : Option Int :=
  match parseTime l with
  | some (h, m, _) => some (h * 3600 + m * 60)
  | none => none

/-- Model of `int(datetime.fromisoformat(s).timestamp())` on the grammar
subset `YYYY-MM-DD[<sep>HH:MM[:SS][±HH:MM]]`: an offset-aware value is
converted to Unix epoch seconds using its own offset; a naive value is
interpreted in the local timezone, whose UTC offset in seconds is the
explicit environment parameter `tz`. -/
def fromiso_epoch (tz : Int) (s : String) : Option Int :=
  let l := s.data
  if l.length = 10 then do
    let (y, m, d) ← parseDate l
    some (daysFromCivil y m d * 86400 - tz)
  else do
    let (y, m, d) ← parseDate (l.take 10)
    let rest := l.drop 11
    let p := splitTZ rest
    let (h, mi, sec) ← parseTime p.1
    let base := daysFromCivil y m d * 86400 + h * 3600 + mi * 60 + sec
    match p.2 with
    | none => some (base - tz)
    | some (neg, ostr) => do
      let osec ← parseOffset ostr
      some (base - (if neg then -osec else osec))

/-- The timestamp computation of `CertificateMetrics.generate` applied to
an already-selected raw string (lines 228-234 of the source): if the
string is non-empty, replace every `'Z'` with `"+00:00"`, parse as
ISO-8601 and convert to epoch seconds; on parse failure (the `except`
branch) or an empty string, the result is `0`. -/
def tsRaw (tz : Int) (last_scanned : String) : Int :=
  if last_scanned ≠ "" then
    (fromiso_epoch tz ⟨replaceChar 'Z' "+00:00".data last_scanned.data⟩).getD 0
  else 0

/-- Timestamp selection and parsing for one certificate entry (line 227:
`cert_info.get('last_scanned', cert_info.get('last_issued', ''))`,
then lines 228-234). -/
def ts_of (tz : Int) (cert_info : CertInfo) : Int :=
  tsRaw tz (cert_info.last_scanned.getD (cert_info.last_issued.getD ""))

/-- The `status_counts` dictionary of `CertificateMetrics.generate`,
whose insertion order is healthy, warning, critical, expired. -/
structure StatusCounts where
  healthy : Nat
  warning : Nat
  critical : Nat
  expired : Nat
deriving DecidableEq, Repr

/-- All four counters start at zero (generate, lines 186-191). -/
def initCounts : StatusCounts :=
  ⟨0, 0, 0, 0⟩

/-- `status_counts[status] += 1`. The argument is always one of the four
keys because `_determine_status` returns nothing else, so the Python
`KeyError` case is unreachable; an unknown key leaves the counts
unchanged here. -/
def bumpStatus (status : String) (c : StatusCounts) : StatusCounts :=
  if status = "healthy" then { c with healthy := c.healthy + 1 }
  else if status = "warning" then { c with warning := c.warning + 1 }
  else if status = "critical" then { c with critical := c.critical + 1 }
  else if status = "expired" then { c with expired := c.expired + 1 }
  else c

/-- The four metric lines appended for one record by the loop body of
`CertificateMetrics.generate` (lines 207-243); a record whose
`certificates` list is empty is skipped (`continue`, line 213) and
contributes no lines. -/
def perCertLines (warning_days critical_days tz : Int) (cert_data : CertData) : List String :=
  match cert_data.certificates with
  | [] => []
  | cert_info :: _ =>
    let hostname := cert_data.hostname.getD "unknown"
    let cn := escape_label (cert_info.common_name.getD "unknown")
    let serial := serial_label (cert_info.serial_number.getD "unknown")
    let days_until_expiry := cert_info.days_until_expiry.getD 0
    let renewal_needed : Int := if cert_info.renewal_needed.getD false then 1 else 0
    let status := determine_status warning_days critical_days days_until_expiry
    let status_value := status_to_value status
    let ts := ts_of tz cert_info
    let labels := "hostname=\"" ++ hostname ++ "\",cn=\"" ++ cn ++ "\",serial=\"" ++ serial ++ "\""
    let status_labels := "hostname=\"" ++ hostname ++ "\",cn=\"" ++ cn ++ "\",status=\"" ++ status ++ "\""
    [ "vault_certificate_days_until_expiry\x7b" ++ labels ++ "\x7d " ++ toString days_until_expiry,
      "vault_certificate_renewal_needed\x7b" ++ labels ++ "\x7d " ++ toString renewal_needed,
      "vault_certificate_status\x7b" ++ status_labels ++ "\x7d " ++ toString status_value,
      "vault_certificate_last_scanned_timestamp\x7b" ++ labels ++ "\x7d " ++ toString ts ]

/-- One iteration of the `for cert_data in certificates` loop: either skip
the record (empty `certificates` list) or append its four metric lines and
increment the counter of its status. -/
def processOne (warning_days critical_days tz : Int)
    (acc : List String × StatusCounts) (cert_data : CertData) :
    List String × StatusCounts :=
  match cert_data.certificates with
  | [] => acc
  | cert_info :: _ =>
    ( acc.1 ++ perCertLines warning_days critical_days tz cert_data,
      bumpStatus
        (determine_status warning_days critical_days (cert_info.days_until_expiry.getD 0))
        acc.2 )

/-- The `# HELP` / `# TYPE` header lines appended before the loop
(generate, lines 194-204). -/
def headerLines : List String :=
  [ "# HELP vault_certificate_days_until_expiry Days until certificate expires",
    "# TYPE vault_certificate_days_until_expiry gauge",
    "# HELP vault_certificate_renewal_needed Certificate renewal needed (1=yes, 0=no)",
    "# TYPE vault_certificate_renewal_needed gauge",
    "# HELP vault_certificate_status Certificate status (0=healthy, 1=warning, 2=critical, 3=expired)",
    "# TYPE vault_certificate_status gauge",
    "# HELP vault_certificate_last_scanned_timestamp Unix timestamp of last certificate scan",
    "# TYPE vault_certificate_last_scanned_timestamp gauge" ]

/-- The `vault_certificates_by_status` lines emitted by iterating
`status_counts.items()` in dictionary insertion order (lines 252-253). -/
def byStatusLines (c : StatusCounts) : List String :=
  [ "vault_certificates_by_status\x7bstatus=\"healthy\"\x7d " ++ toString c.healthy,
    "vault_certificates_by_status\x7bstatus=\"warning\"\x7d " ++ toString c.warning,
    "vault_certificates_by_status\x7bstatus=\"critical\"\x7d " ++ toString c.critical,
    "vault_certificates_by_status\x7bstatus=\"expired\"\x7d " ++ toString c.expired ]

/-- Body of `CertificateMetrics.generate` as the list of metric lines,
before the final newline join. The `int(time.time())` sampled at line 258
is the explicit parameter `now`. -/
def generateLines (warning_days critical_days tz now : Int)
    (certificates : List CertData) : List String :=
  let r := certificates.foldl (processOne warning_days critical_days tz)
    (headerLines, initCounts)
  r.1
  ++ [ "# HELP vault_certificates_total Total number of certificates tracked",
       "# TYPE vault_certificates_total gauge",
       "vault_certificates_total " ++ toString certificates.length ]
  ++ [ "# HELP vault_certificates_by_status Count of certificates by status",
       "# TYPE vault_certificates_by_status gauge" ]
  ++ byStatusLines r.2
  ++ [ "# HELP vault_cert_exporter_last_scrape_timestamp Unix timestamp of last successful scrape",
       "# TYPE vault_cert_exporter_last_scrape_timestamp gauge",
       "vault_cert_exporter_last_scrape_timestamp " ++ toString now ]

/-- The final `'\n'.join(self.metrics) + '\n'` (line 260). -/
def joinNl (lines : List String) : String :=
  String.intercalate "\n" lines ++ "\n"

/-- `CertificateMetrics.generate`. -/
def generate (warning_days critical_days tz now : Int)
    (certificates : List CertData) : String :=
  joinNl (generateLines warning_days critical_days tz now certificates)

/-- Abstract inventory provider standing for the outcome of the Vault
client's network calls during one scrape: `authenticate` yields a token
or fails; `listResult` is `none` when the LIST call raised (the Python
method then returns `[]`, line 124); `get_certificate id` is `none` when
the per-id GET raised, returned `None`, or returned a falsy (empty)
record, all of which `serve_metrics` skips (`if cert_data:`, line 303). -/
structure Provider where
  authenticate : Option String
  listResult : Option (List String)
  get_certificate : String → Option CertData

/-- `VaultClient.list_certificates`: the exception handler turns a failed
LIST call into an empty key list. -/
def list_certificates (p : Provider) : List String :=
  p.listResult.getD []

/-- Mutable state threaded through `MetricsHandler.serve_metrics`: the
Vault client's token and the class-level `cached_metrics` /
`last_scrape` fields (initially `""` and `0`). -/
structure HandlerState where
  token : Option String
  cached_metrics : String
  last_scrape : Int
deriving DecidableEq, Repr

/-- The refresh path of `serve_metrics` (lines 291-313): re-authenticate
if no token is held (a failure raises, answered as a 500 with body
"Error: Vault authentication failed"); list the certificate keys; fetch
each, keeping only truthy records; generate the metrics text; store it in
the cache together with the current time. -/
def scrape_refresh (warning_days critical_days tz : Int) (p : Provider)
    (now renderNow : Int) (st : HandlerState) :
    Except String String × HandlerState :=
  let tokRes := match st.token with
    | some t => some t
    | none => p.authenticate
  match tokRes with
  | none => (Except.error "Error: Vault authentication failed", st)
  | some tok =>
    let hostnames := list_certificates p
    let certificates := hostnames.filterMap p.get_certificate
    let metrics := generate warning_days critical_days tz renderNow certificates
    ( Except.ok metrics,
      { token := some tok, cached_metrics := metrics, last_scrape := now } )

/-- `MetricsHandler.serve_metrics`: serve the cached text when
`current_time - self.last_scrape < self.cache_duration and self.cached_metrics`
(line 288), otherwise run a refresh. `now` is the `time.time()` read at
line 287 and `renderNow` the `int(time.time())` read inside `generate`. -/
def serve_metrics (warning_days critical_days tz cache_duration : Int)
    (p : Provider) (now renderNow : Int) (st : HandlerState) :
    Except String String × HandlerState :=
  if now - st.last_scrape < cache_duration ∧ st.cached_metrics ≠ "" then
    (Except.ok st.cached_metrics, st)
  else
    scrape_refresh warning_days critical_days tz p now renderNow st

/-! Helper lemmas about the escaping core. -/

theorem replaceChar_append (c : Char) (r : List Char) (a b : List Char) :
    replaceChar c r (a ++ b) = replaceChar c r a ++ replaceChar c r b := by
  induction a with
  | nil => rfl
  | cons x xs ih => simp [replaceChar, ih, List.append_assoc]

theorem replaceChar_of_not_mem (c : Char) (r : List Char) (l : List Char) (h : c ∉ l) :
    replaceChar c r l = l := by
  induction l with
  | nil => rfl
  | cons x xs ih =>
    simp only [List.mem_cons, not_or] at h
    simp [replaceChar, Ne.symm h.1, ih h.2]

theorem stage_head (x : Char) :
    replaceChar '\n' ['\\', 'n']
        (replaceChar '"' ['\\', '"'] (if x = '\\' then ['\\', '\\'] else [x]))
      = escChar x := by
  by_cases h1 : x = '\\'
  · subst h1; decide
  · by_cases h2 : x = '"'
    · subst h2; decide
    · by_cases h3 : x = '\n'
      · subst h3; decide
      · simp [escChar, replaceChar, h1, h2, h3]

theorem escapeCore_cons (x : Char) (xs : List Char) :
    escapeCore (x :: xs) = escChar x ++ escapeCore xs := by
  have h : replaceChar '\\' ['\\', '\\'] (x :: xs)
      = (if x = '\\' then ['\\', '\\'] else [x]) ++ replaceChar '\\' ['\\', '\\'] xs := rfl
  unfold escapeCore
  rw [h, replaceChar_append, replaceChar_append, stage_head]

theorem escapeCore_eq_escapeAll (l : List Char) : escapeCore l = escapeAll l := by
  induction l with
  | nil => rfl
  | cons x xs ih =>
    rw [escapeCore_cons, ih]
    rfl

theorem noUnescapedQuote_escChar (c : Char) (l : List Char) :
    noUnescapedQuote (escChar c ++ l) = noUnescapedQuote l := by
  by_cases h1 : c = '\\'
  · subst h1; rfl
  · by_cases h2 : c = '"'
    · subst h2; rfl
    · by_cases h3 : c = '\n'
      · subst h3; rfl
      · rw [show escChar c = [c] by simp [escChar, h1, h2, h3]]
        show noUnescapedQuote (c :: l) = noUnescapedQuote l
        conv_lhs => unfold noUnescapedQuote
        rw [if_neg h1, if_neg h2]

theorem noUnescapedQuote_escapeAll (l : List Char) :
    noUnescapedQuote (escapeAll l) = true := by
  induction l with
  | nil => rfl
  | cons x xs ih =>
    show noUnescapedQuote (escChar x ++ escapeAll xs) = true
    rw [noUnescapedQuote_escChar, ih]

theorem unescapeCore_escChar (c : Char) (l : List Char) :
    unescapeCore (escChar c ++ l) = c :: unescapeCore l := by
  by_cases h1 : c = '\\'
  · subst h1; rfl
  · by_cases h2 : c = '"'
    · subst h2; rfl
    · by_cases h3 : c = '\n'
      · subst h3; rfl
      · rw [show escChar c = [c] by simp [escChar, h1, h2, h3]]
        show unescapeCore (c :: l) = c :: unescapeCore l
        conv_lhs => unfold unescapeCore
        rw [if_neg h1]

theorem unescapeCore_escapeAll (l : List Char) :
    unescapeCore (escapeAll l) = l := by
  induction l with
  | nil => rfl
  | cons x xs ih =>
    show unescapeCore (escChar x ++ escapeAll xs) = x :: xs
    rw [unescapeCore_escChar, ih]

/-! Claim theorems: the status classifier. -/

/-- C2: for every integer daysUntilExpiry and every pair of integer
thresholds, `_determine_status` evaluates its cases in order with first
match winning — `expired` if daysUntilExpiry ≤ 0, else `critical` if
daysUntilExpiry ≤ criticalThreshold, else `warning` if
daysUntilExpiry ≤ warningThreshold, else `healthy` — and no ordering of
the thresholds is assumed or validated. -/
theorem determine_status_first_match (d w c : Int) :
    (d ≤ 0 → determine_status w c d = "expired") ∧
    (0 < d → d ≤ c → determine_status w c d = "critical") ∧
    (0 < d → c < d → d ≤ w → determine_status w c d = "warning") ∧
    (0 < d → c < d → w < d → determine_status w c d = "healthy") := by
  unfold determine_status
  refine ⟨?_, ?_, ?_, ?_⟩ <;> intros <;> split_ifs <;> first | rfl | (exfalso; omega)

/-- C2 witness at the spec's boundary points with thresholds (30, 7). -/
theorem determine_status_first_match_witness :
    determine_status 30 7 0 = "expired" ∧ determine_status 30 7 7 = "critical" ∧
    determine_status 30 7 30 = "warning" ∧ determine_status 30 7 31 = "healthy" :=
  ⟨(determine_status_first_match 0 30 7).1 (by decide),
   (determine_status_first_match 7 30 7).2.1 (by decide) (by decide),
   (determine_status_first_match 30 30 7).2.2.1 (by decide) (by decide) (by decide),
   (determine_status_first_match 31 30 7).2.2.2 (by decide) (by decide) (by decide)⟩

/-- C3: for all integers d1, d2 and all threshold pairs, including
inverted ones, the classifier returns exactly one of the four statuses,
and it is antitone in days-until-expiry with respect to the integer
severity codes of `_status_to_value` (healthy=0, warning=1, critical=2,
expired=3): d1 ≤ d2 implies severity d1 ≥ severity d2. -/
theorem classify_total_and_monotone (d1 d2 w c : Int) :
    (determine_status w c d1 = "healthy" ∨ determine_status w c d1 = "warning" ∨
     determine_status w c d1 = "critical" ∨ determine_status w c d1 = "expired") ∧
    (d1 ≤ d2 →
      status_to_value (determine_status w c d2)
        ≤ status_to_value (determine_status w c d1)) := by
  constructor
  · unfold determine_status
    split_ifs <;> decide
  · intro h
    unfold determine_status
    split_ifs <;> first | decide | (exfalso; omega)

/-- C3 witness: with inverted thresholds (warning 7 < critical 30) and
5 ≤ 100, severity of classify(100) is below severity of classify(5). -/
theorem classify_total_and_monotone_witness :
    status_to_value (determine_status 7 30 100)
      ≤ status_to_value (determine_status 7 30 5) :=
  (classify_total_and_monotone 5 100 7 30).2 (by decide)

/-- C6: `_escape_label` replaces backslash, then double quote, then
newline, in exactly that order; the sequential replaces equal a single
pass over the input (so no double-escaping occurs), the result never
contains a double quote that a reader of the quoted label value would see
as unescaped, and decoding the escapes recovers the original string. -/
theorem escape_label_no_unescaped_quote (s : String) :
    (escape_label s).data = escapeAll s.data ∧
    noUnescapedQuote ((escape_label s).data) = true ∧
    unescapeCore ((escape_label s).data) = s.data := by
  have h1 : (escape_label s).data = escapeAll s.data := escapeCore_eq_escapeAll s.data
  refine ⟨h1, ?_, ?_⟩
  · rw [h1, noUnescapedQuote_escapeAll]
  · rw [h1, unescapeCore_escapeAll]

/-- C5: the rendered serial label value is the escape of the raw serial
truncated to its first 16 characters: decoding the label value yields
exactly the first 16 characters of the raw serial, so a longer serial
appears truncated to exactly 16 characters and one of 16 or fewer
characters appears unchanged. -/
theorem serial_truncated_to_16 (raw : String) :
    (serial_label raw).data = escapeCore (raw.data.take 16) ∧
    unescapeCore ((serial_label raw).data) = raw.data.take 16 ∧
    (raw.data.length ≤ 16 → unescapeCore ((serial_label raw).data) = raw.data) ∧
    (16 < raw.data.length →
      (unescapeCore ((serial_label raw).data)).length = 16) := by
  have h1 : (serial_label raw).data = escapeCore (raw.data.take 16) := rfl
  have h2 : unescapeCore ((serial_label raw).data) = raw.data.take 16 := by
    rw [h1, escapeCore_eq_escapeAll, unescapeCore_escapeAll]
  refine ⟨h1, h2, fun hle => ?_, fun hgt => ?_⟩
  · rw [h2, List.take_of_length_le hle]
  · rw [h2, List.length_take]
    omega

/-- C5 witness: a 19-character serial decodes to exactly 16 characters;
a 5-character serial is unchanged. -/
theorem serial_truncated_to_16_witness :
    (unescapeCore ((serial_label "ABCDEF0123456789XYZ").data)).length = 16 ∧
    unescapeCore ((serial_label "short").data) = "short".data :=
  ⟨(serial_truncated_to_16 "ABCDEF0123456789XYZ").2.2.2 (by decide),
   (serial_truncated_to_16 "short").2.2.1 (by decide)⟩

/-! Characterisation of the generate loop. -/

/-- The status-counter update of one loop iteration in isolation. -/
def bumpOne (warning_days critical_days : Int) (acc : StatusCounts) (cd : CertData) :
    StatusCounts :=
  match cd.certificates with
  | [] => acc
  | cert_info :: _ =>
    bumpStatus
      (determine_status warning_days critical_days (cert_info.days_until_expiry.getD 0)) acc

/-- Final status counters after the loop. -/
def countsOf (warning_days critical_days : Int) (certs : List CertData) : StatusCounts :=
  certs.foldl (bumpOne warning_days critical_days) initCounts

/-- Per-certificate metric lines of a record sequence, concatenated in
input order. -/
def linesOf (warning_days critical_days tz : Int) : List CertData → List String
  | [] => []
  | cd :: rest =>
    perCertLines warning_days critical_days tz cd ++ linesOf warning_days critical_days tz rest

/-- The summary and self-metric lines emitted after the loop. -/
def tailLines (warning_days critical_days now : Int) (certs : List CertData) : List String :=
  [ "# HELP vault_certificates_total Total number of certificates tracked",
    "# TYPE vault_certificates_total gauge",
    "vault_certificates_total " ++ toString certs.length ]
  ++ [ "# HELP vault_certificates_by_status Count of certificates by status",
       "# TYPE vault_certificates_by_status gauge" ]
  ++ byStatusLines (countsOf warning_days critical_days certs)
  ++ [ "# HELP vault_cert_exporter_last_scrape_timestamp Unix timestamp of last successful scrape",
       "# TYPE vault_cert_exporter_last_scrape_timestamp gauge",
       "vault_cert_exporter_last_scrape_timestamp " ++ toString now ]

theorem foldl_processOne_eq (w c tz : Int) (certs : List CertData)
    (ls : List String) (sc : StatusCounts) :
    certs.foldl (processOne w c tz) (ls, sc)
      = (ls ++ linesOf w c tz certs, certs.foldl (bumpOne w c) sc) := by
  induction certs generalizing ls sc with
  | nil => simp [linesOf]
  | cons cd rest ih =>
    cases h : cd.certificates with
    | nil =>
      simp [List.foldl, processOne, bumpOne, perCertLines, h, ih, linesOf]
    | cons i tl =>
      simp [List.foldl, processOne, bumpOne, h, ih, linesOf, List.append_assoc]

theorem generateLines_eq (w c tz now : Int) (certs : List CertData) :
    generateLines w c tz now certs
      = headerLines ++ linesOf w c tz certs ++ tailLines w c now certs := by
  unfold generateLines tailLines countsOf
  rw [foldl_processOne_eq]
  simp [List.append_assoc]

theorem getLast?_append_three (A : List String) (a b s : String) :
    (A ++ [a, b, s]).getLast? = some s := by
  rw [show [a, b, s] = [a, b] ++ [s] from rfl, ← List.append_assoc, List.getLast?_concat]

/-! Claim theorems: the renderer. -/

/-- A record whose certificate-entry sequence is empty. -/
def emptyRec : CertData :=
  { hostname := some "b", fqdn := some "b", certificates := [] }

/-- C1 counterexample: a single input record whose certificate-entry list
is empty yields the emitted line `vault_certificates_total 1`, not
`vault_certificates_total 0`, although the number of records with a
non-empty entry sequence is 0 — the total counts all input records, so
the claim as stated is false. -/
theorem total_counts_empty_record :
    "vault_certificates_total 1" ∈ generateLines 30 7 0 0 [emptyRec] ∧
    "vault_certificates_total 0" ∉ generateLines 30 7 0 0 [emptyRec] ∧
    (([emptyRec] : List CertData).filter (fun cd => !cd.certificates.isEmpty)).length = 0 := by
  refine ⟨?_, ?_, ?_⟩ <;> decide

/-- C1 amended: a record with an empty certificate-entry sequence
contributes no per-certificate metric series and increments no per-status
counter, but it is counted in the emitted `vault_certificates_total`
value, which equals the number of all input records, empty ones
included. -/
theorem empty_record_skipped_but_counted (w c tz now : Int) (certs : List CertData)
    (cd : CertData) (sc : StatusCounts) (h : cd.certificates = []) :
    perCertLines w c tz cd = [] ∧
    bumpOne w c sc cd = sc ∧
    "vault_certificates_total " ++ toString certs.length
      ∈ generateLines w c tz now certs := by
  refine ⟨by simp [perCertLines, h], by simp [bumpOne, h], ?_⟩
  rw [generateLines_eq]
  unfold tailLines
  simp

/-- C1 amended witness: concrete instance with one empty-entry record. -/
theorem empty_record_skipped_but_counted_witness :
    perCertLines 30 7 0 emptyRec = [] ∧
    bumpOne 30 7 initCounts emptyRec = initCounts ∧
    "vault_certificates_total " ++ toString ([emptyRec] : List CertData).length
      ∈ generateLines 30 7 0 0 [emptyRec] :=
  empty_record_skipped_but_counted 30 7 0 0 [emptyRec] emptyRec initCounts rfl

/-- C4 amended: rendering is byte-deterministic given the record
sequence, the thresholds, the timezone offset and the clock value read
inside the renderer — the output text is a function of these alone, with
the per-certificate series concatenated in input sequence order between
the fixed header and summary blocks — and the self-metric last-scrape
line carries exactly that renderer-internal clock sample (the
`int(time.time())` of line 258, the `now` parameter of the embedding),
not the handler-supplied request time stored as the snapshot
timestamp. -/
theorem render_deterministic_ordered (w c tz now : Int) (certs : List CertData) :
    generate w c tz now certs
      = joinNl (headerLines ++ linesOf w c tz certs ++ tailLines w c now certs) ∧
    (generateLines w c tz now certs).getLast?
      = some ("vault_cert_exporter_last_scrape_timestamp " ++ toString now) := by
  constructor
  · unfold generate
    rw [generateLines_eq]
  · rw [generateLines_eq]
    unfold tailLines
    rw [show headerLines ++ linesOf w c tz certs
          ++ ([ "# HELP vault_certificates_total Total number of certificates tracked",
                "# TYPE vault_certificates_total gauge",
                "vault_certificates_total " ++ toString certs.length ]
              ++ [ "# HELP vault_certificates_by_status Count of certificates by status",
                   "# TYPE vault_certificates_by_status gauge" ]
              ++ byStatusLines (countsOf w c certs)
              ++ [ "# HELP vault_cert_exporter_last_scrape_timestamp Unix timestamp of last successful scrape",
                   "# TYPE vault_cert_exporter_last_scrape_timestamp gauge",
                   "vault_cert_exporter_last_scrape_timestamp " ++ toString now ])
          = (headerLines ++ linesOf w c tz certs
              ++ ([ "# HELP vault_certificates_total Total number of certificates tracked",
                    "# TYPE vault_certificates_total gauge",
                    "vault_certificates_total " ++ toString certs.length ]
                  ++ [ "# HELP vault_certificates_by_status Count of certificates by status",
                       "# TYPE vault_certificates_by_status gauge" ]
                  ++ byStatusLines (countsOf w c certs)))
            ++ [ "# HELP vault_cert_exporter_last_scrape_timestamp Unix timestamp of last successful scrape",
                 "# TYPE vault_cert_exporter_last_scrape_timestamp gauge",
                 "vault_cert_exporter_last_scrape_timestamp " ++ toString now ]
        by simp [List.append_assoc]]
    exact getLast?_append_three _ _ _ _

/-- C10: only the common-name and serial-number strings pass through
`_escape_label`; the hostname value and the status name are interpolated
into the label positions of all four emitted series exactly as received,
without escaping. -/
theorem hostname_status_not_escaped (w c tz : Int) (cd : CertData) (i : CertInfo)
    (tl : List CertInfo) (h : cd.certificates = i :: tl) :
    perCertLines w c tz cd
      = [ "vault_certificate_days_until_expiry\x7b"
            ++ ("hostname=\"" ++ cd.hostname.getD "unknown" ++ "\",cn=\""
                ++ escape_label (i.common_name.getD "unknown") ++ "\",serial=\""
                ++ serial_label (i.serial_number.getD "unknown") ++ "\"")
            ++ "\x7d " ++ toString (i.days_until_expiry.getD 0),
          "vault_certificate_renewal_needed\x7b"
            ++ ("hostname=\"" ++ cd.hostname.getD "unknown" ++ "\",cn=\""
                ++ escape_label (i.common_name.getD "unknown") ++ "\",serial=\""
                ++ serial_label (i.serial_number.getD "unknown") ++ "\"")
            ++ "\x7d " ++ toString (if i.renewal_needed.getD false then (1 : Int) else 0),
          "vault_certificate_status\x7b"
            ++ ("hostname=\"" ++ cd.hostname.getD "unknown" ++ "\",cn=\""
                ++ escape_label (i.common_name.getD "unknown") ++ "\",status=\""
                ++ determine_status w c (i.days_until_expiry.getD 0) ++ "\"")
            ++ "\x7d "
            ++ toString (status_to_value (determine_status w c (i.days_until_expiry.getD 0))),
          "vault_certificate_last_scanned_timestamp\x7b"
            ++ ("hostname=\"" ++ cd.hostname.getD "unknown" ++ "\",cn=\""
                ++ escape_label (i.common_name.getD "unknown") ++ "\",serial=\""
                ++ serial_label (i.serial_number.getD "unknown") ++ "\"")
            ++ "\x7d " ++ toString (ts_of tz i) ] := by
  simp only [perCertLines, h]

/-- A certificate entry with a benign common name. -/
def plainInfo : CertInfo :=
  { common_name := some "cn", serial_number := some "s", days_until_expiry := some 1,
    renewal_needed := some false, last_scanned := none, last_issued := none }

/-- A record whose hostname contains a double quote. -/
def quoteHostRec : CertData :=
  { hostname := some "a\"b", fqdn := none, certificates := [plainInfo] }

/-- C10 witness: a hostname containing a double quote is rendered
verbatim into the label position. -/
theorem hostname_status_not_escaped_witness :
    perCertLines 30 7 0 quoteHostRec
      = [ "vault_certificate_days_until_expiry\x7b"
            ++ ("hostname=\"" ++ (quoteHostRec.hostname.getD "unknown") ++ "\",cn=\""
                ++ escape_label (plainInfo.common_name.getD "unknown") ++ "\",serial=\""
                ++ serial_label (plainInfo.serial_number.getD "unknown") ++ "\"")
            ++ "\x7d " ++ toString (plainInfo.days_until_expiry.getD 0),
          "vault_certificate_renewal_needed\x7b"
            ++ ("hostname=\"" ++ (quoteHostRec.hostname.getD "unknown") ++ "\",cn=\""
                ++ escape_label (plainInfo.common_name.getD "unknown") ++ "\",serial=\""
                ++ serial_label (plainInfo.serial_number.getD "unknown") ++ "\"")
            ++ "\x7d " ++ toString (if plainInfo.renewal_needed.getD false then (1 : Int) else 0),
          "vault_certificate_status\x7b"
            ++ ("hostname=\"" ++ (quoteHostRec.hostname.getD "unknown") ++ "\",cn=\""
                ++ escape_label (plainInfo.common_name.getD "unknown") ++ "\",status=\""
                ++ determine_status 30 7 (plainInfo.days_until_expiry.getD 0) ++ "\"")
            ++ "\x7d "
            ++ toString (status_to_value (determine_status 30 7 (plainInfo.days_until_expiry.getD 0))),
          "vault_certificate_last_scanned_timestamp\x7b"
            ++ ("hostname=\"" ++ (quoteHostRec.hostname.getD "unknown") ++ "\",cn=\""
                ++ escape_label (plainInfo.common_name.getD "unknown") ++ "\",serial=\""
                ++ serial_label (plainInfo.serial_number.getD "unknown") ++ "\"")
            ++ "\x7d " ++ toString (ts_of 0 plainInfo) ] :=
  hostname_status_not_escaped 30 7 0 quoteHostRec plainInfo [] rfl

/-! Claim theorems: cache and scrape orchestration. -/

/-- C7: `serve_metrics` triggers a refresh if and only if the snapshot is
absent (empty cached text) or now minus the snapshot timestamp has
reached the cache duration; otherwise it returns the cached text
unchanged, touching neither the state nor the provider. -/
theorem cache_freshness (w c tz d : Int) (p q : Provider) (now renderNow : Int)
    (st : HandlerState) :
    (st.cached_metrics ≠ "" → now - st.last_scrape < d →
        serve_metrics w c tz d p now renderNow st = (Except.ok st.cached_metrics, st)) ∧
    (st.cached_metrics ≠ "" → now - st.last_scrape < d →
        serve_metrics w c tz d q now renderNow st
          = serve_metrics w c tz d p now renderNow st) ∧
    (st.cached_metrics = "" ∨ d ≤ now - st.last_scrape →
        serve_metrics w c tz d p now renderNow st
          = scrape_refresh w c tz p now renderNow st) := by
  have hserve : ∀ r : Provider, st.cached_metrics ≠ "" → now - st.last_scrape < d →
      serve_metrics w c tz d r now renderNow st = (Except.ok st.cached_metrics, st) := by
    intro r hne hlt
    unfold serve_metrics
    rw [if_pos ⟨hlt, hne⟩]
  refine ⟨hserve p, fun hne hlt => ?_, fun hcase => ?_⟩
  · rw [hserve q hne hlt, hserve p hne hlt]
  · unfold serve_metrics
    rw [if_neg]
    rcases hcase with h | h
    · rintro ⟨_, hne⟩; exact hne h
    · rintro ⟨hlt, _⟩; omega

/-- A provider whose listing yields no keys. -/
def noKeysProvider : Provider :=
  { authenticate := some "tok", listResult := some [], get_certificate := fun _ => none }

/-- A second provider, differing from `noKeysProvider`, used to show the
cached path never consults the provider. -/
def otherProvider : Provider :=
  { authenticate := none, listResult := none, get_certificate := fun _ => some emptyRec }

/-- A handler state holding a token and a non-empty snapshot taken at
time 0. -/
def warmState : HandlerState :=
  { token := some "tok", cached_metrics := "cached", last_scrape := 0 }

/-- C7 witness: with cacheDurationSeconds = 60 and a snapshot generated
at t = 0, a request at t = 59 serves the cached text without consulting
the provider, and a request at t = 60 triggers a refresh. -/
theorem cache_freshness_witness :
    serve_metrics 30 7 0 60 noKeysProvider 59 59 warmState
      = (Except.ok warmState.cached_metrics, warmState) ∧
    serve_metrics 30 7 0 60 otherProvider 59 59 warmState
      = serve_metrics 30 7 0 60 noKeysProvider 59 59 warmState ∧
    serve_metrics 30 7 0 60 noKeysProvider 60 60 warmState
      = scrape_refresh 30 7 0 noKeysProvider 60 60 warmState :=
  ⟨(cache_freshness 30 7 0 60 noKeysProvider otherProvider 59 59 warmState).1
      (by decide) (by decide),
   (cache_freshness 30 7 0 60 noKeysProvider otherProvider 59 59 warmState).2.1
      (by decide) (by decide),
   (cache_freshness 30 7 0 60 noKeysProvider otherProvider 60 60 warmState).2.2
      (Or.inr (by decide))⟩

/-- C8: during a scrape cycle on the refresh path, a failed listing call
is treated as an empty key sequence and the cycle still completes with a
rendered (empty) snapshot, and a fetch failure or absent record for one
identifier removes only that identifier — the remaining identifiers on
both sides of it are still fetched and rendered. -/
theorem scrape_skips_failures (w c tz d : Int) (p : Provider) (now renderNow : Int)
    (st : HandlerState) (tok : String) (hs1 hs2 : List String) (bad : String)
    (htok : st.token = some tok) (hmiss : st.cached_metrics = "") :
    (p.listResult = none →
        serve_metrics w c tz d p now renderNow st
          = (Except.ok (generate w c tz renderNow []),
             { token := some tok, cached_metrics := generate w c tz renderNow [],
               last_scrape := now })) ∧
    (p.listResult = some (hs1 ++ bad :: hs2) → p.get_certificate bad = none →
        serve_metrics w c tz d p now renderNow st
          = (Except.ok (generate w c tz renderNow
                (hs1.filterMap p.get_certificate ++ hs2.filterMap p.get_certificate)),
             { token := some tok,
               cached_metrics := generate w c tz renderNow
                 (hs1.filterMap p.get_certificate ++ hs2.filterMap p.get_certificate),
               last_scrape := now })) := by
  have hcond : ¬(now - st.last_scrape < d ∧ st.cached_metrics ≠ "") := by
    rintro ⟨_, hne⟩; exact hne hmiss
  constructor
  · intro hlist
    unfold serve_metrics
    rw [if_neg hcond]
    unfold scrape_refresh list_certificates
    rw [htok, hlist]
    rfl
  · intro hlist hbad
    unfold serve_metrics
    rw [if_neg hcond]
    unfold scrape_refresh list_certificates
    rw [htok, hlist]
    simp [List.filterMap_append, List.filterMap_cons, hbad]

/-- A provider that lists two keys, of which only "good" has a record. -/
def skipProvider : Provider :=
  { authenticate := some "tok", listResult := some ["good", "bad"],
    get_certificate := fun h => if h = "good" then some quoteHostRec else none }

/-- A provider whose listing call fails. -/
def listFailProvider : Provider :=
  { authenticate := some "tok", listResult := none,
    get_certificate := fun _ => some quoteHostRec }

/-- A handler state holding a token but no snapshot yet. -/
def coldState : HandlerState :=
  { token := some "tok", cached_metrics := "", last_scrape := 0 }

set_option maxRecDepth 2000 in
/-- C4 counterexample: the self-metric timestamp is a value sampled
inside the renderer (`int(time.time())` at line 258), not the supplied
request-time value that the handler reads at line 287 and stores as the
snapshot timestamp. In a request where the handler clock reads 100 and
the renderer-internal sample reads 101, the new snapshot records
last_scrape 100 while the served text's self-metric line says 101 (a
line saying 100 is nowhere in the output), and with records and the
handler-supplied time fixed the rendered bytes still change as the
renderer-internal sample moves — so output is not determined by records,
thresholds and a supplied nowEpochSeconds alone. -/
theorem self_metric_from_internal_sample :
    (serve_metrics 30 7 0 60 noKeysProvider 100 101 coldState).2.last_scrape = 100 ∧
    (serve_metrics 30 7 0 60 noKeysProvider 100 101 coldState).2.cached_metrics
      = generate 30 7 0 101 [] ∧
    (generateLines 30 7 0 101 []).getLast?
      = some "vault_cert_exporter_last_scrape_timestamp 101" ∧
    "vault_cert_exporter_last_scrape_timestamp 100" ∉ generateLines 30 7 0 101 [] ∧
    generate 30 7 0 100 [] ≠ generate 30 7 0 101 [] := by
  refine ⟨rfl, rfl, by decide, by decide, fun h =>
    absurd (congrArg (fun s => List.take 8 s.data.reverse) h) (by decide)⟩

/-- C8 witness: a failed listing renders an empty snapshot; a failing
identifier among the listed keys is skipped while the good one is kept. -/
theorem scrape_skips_failures_witness :
    serve_metrics 30 7 0 60 listFailProvider 100 100 coldState
      = (Except.ok (generate 30 7 0 100 []),
         { token := some "tok", cached_metrics := generate 30 7 0 100 [],
           last_scrape := 100 }) ∧
    serve_metrics 30 7 0 60 skipProvider 100 100 coldState
      = (Except.ok (generate 30 7 0 100
            (["good"].filterMap skipProvider.get_certificate
              ++ ([] : List String).filterMap skipProvider.get_certificate)),
         { token := some "tok",
           cached_metrics := generate 30 7 0 100
             (["good"].filterMap skipProvider.get_certificate
               ++ ([] : List String).filterMap skipProvider.get_certificate),
           last_scrape := 100 }) :=
  ⟨(scrape_skips_failures 30 7 0 60 listFailProvider 100 100 coldState "tok"
      ["good"] [] "bad" rfl rfl).1 rfl,
   (scrape_skips_failures 30 7 0 60 skipProvider 100 100 coldState "tok"
      ["good"] [] "bad" rfl rfl).2 rfl (by decide)⟩

/-- C9: the rendered timestamp uses last-scanned, falling back to
last-issued when last-scanned is absent, and 0 when both are absent; a
trailing Z is replaced by the UTC offset +00:00 before ISO-8601 parsing;
a well-formed value yields its Unix epoch seconds and a malformed value
degrades to 0 instead of failing the render. -/
theorem timestamp_parse_policy (tz : Int) (i : CertInfo) (s : String) (l : List Char) :
    (ts_of tz { i with last_scanned := some s } = tsRaw tz s) ∧
    (ts_of tz { i with last_scanned := none, last_issued := some s } = tsRaw tz s) ∧
    (ts_of tz { i with last_scanned := none, last_issued := none } = 0) ∧
    ('Z' ∉ l →
       tsRaw tz ⟨l ++ ['Z']⟩ = (fromiso_epoch tz ⟨l ++ "+00:00".data⟩).getD 0) ∧
    (tsRaw tz "2024-01-02T03:04:05Z" = 1704164645) ∧
    (tsRaw tz "not-a-timestamp" = 0) := by
  refine ⟨rfl, rfl, rfl, fun hz => ?_, rfl, rfl⟩
  have hne : (⟨l ++ ['Z']⟩ : String) ≠ "" := by
    intro hEq
    have hd := congrArg String.data hEq
    simp at hd
  unfold tsRaw
  rw [if_pos hne]
  have hrw : replaceChar 'Z' "+00:00".data (l ++ ['Z']) = l ++ "+00:00".data := by
    rw [replaceChar_append, replaceChar_of_not_mem _ _ _ hz]
    rfl
  rw [show (⟨l ++ ['Z']⟩ : String).data = l ++ ['Z'] from rfl, hrw]

/-- C9 witness: the trailing-Z conjunct at a concrete timestamp. -/
theorem timestamp_parse_policy_witness :
    tsRaw 0 ⟨"2024-01-02T03:04:05".data ++ ['Z']⟩
      = (fromiso_epoch 0 ⟨"2024-01-02T03:04:05".data ++ "+00:00".data⟩).getD 0 :=
  (timestamp_parse_policy 0 plainInfo "" "2024-01-02T03:04:05".data).2.2.2.1 (by decide)

end VaultCertExporter
